import Mathlib

/-!
Shallow embedding of the quiz-attempt core of the cloud_quiz backend
(src/quizapp-backend): the attempt store and answer recorder
(controllers/quizAttemptController.js), the bulk attempt submitter
(createQuizAttempt in the same file), the insight engine
(generateUserInsights in utils/migrateAndCleanupTopics.js) and the
dashboard projector (controllers/dashboardController.js), together with
the Mongoose data model (models/Quiz.js, models/Question.js,
models/MLInsight.js).

Modelling conventions:
- MongoDB collections are lists of records; findOne is List.find? on the
  query predicate, countDocuments is List.countP, updateOne updates the
  first matching record, insertMany appends subject to the declared
  unique indexes.
- JavaScript numbers are modelled as exact rationals; Date values as
  natural-number timestamps.  Math.round(x) in JavaScript rounds half
  toward positive infinity, i.e. it is the floor of x + 1/2.
- uuidv4() results are supplied as explicit parameters; freshness is a
  hypothesis where a theorem needs it.
- Array.prototype.sort is stable and is invoked with total comparators
  (b - a on timestamps), for which every stable sort computes the same
  list, so it is modelled by List.insertionSort on the matching relation.
- The background call of generateUserInsights after a completion is
  modelled by the insight_runs counter on the database state: the counter
  is incremented exactly where the source enqueues an insight run.
-/

namespace CloudQuiz

/-- JavaScript Math.round: rounds half toward positive infinity. -/
def jround (q : ℚ) : ℤ := ⌊q + 1/2⌋

/-- Attempt lifecycle status (models/Quiz.js quizAttemptSchema.status,
enum IN_PROGRESS / COMPLETED / ABANDONED). -/
inductive AttemptStatus
  | inProgress
  | completed
  | abandoned
deriving DecidableEq, Repr

/-- A quiz document (models/Quiz.js quizSchema): topic and difficulty are
what the insight engine consumes; difficulty is one of EASY, MEDIUM,
HARD. -/
structure Quiz where
  id : String
  topic : String
  difficulty : String
deriving DecidableEq, Repr

/-- A question document (models/Question.js): quiz_id links it to its
quiz and correct_answer is an ordered array of strings. -/
structure Question where
  id : String
  quiz_id : String
  correct_answer : List String
deriving DecidableEq, Repr

/-- A quiz attempt document (models/Quiz.js quizAttemptSchema).  score,
total_questions, correct_answers and time_taken default to null and are
Number-typed with no range constraint in the schema. -/
structure Attempt where
  id : String
  user_id : String
  quiz_id : String
  status : AttemptStatus
  score : Option ℚ
  total_questions : Option ℚ
  correct_answers : Option ℚ
  time_taken : Option ℚ
  created_at : ℕ
  completed_at : Option ℕ
deriving DecidableEq, Repr

/-- An answer record (models/Quiz.js quizAttemptAnswerSchema).  The
schema declares a unique compound index on (attempt_id, question_id). -/
structure AnswerRecord where
  id : String
  attempt_id : String
  question_id : String
  question_order : ℚ
  selected_answer : List String
  is_correct : Bool
  created_at : ℕ
deriving DecidableEq, Repr

/-- A persisted ML insight document (models/MLInsight.js).  Only the
paths declared in the schema are persisted: weak_topics, strong_topics,
confidence_scores, topic_performance and last_updated (the generator
also assigns topic_proficiency and weak_topics_data, but the schema is
strict, so those assignments are dropped on save). -/
structure StoredInsight where
  id : String
  user_id : String
  weak_topics : List String
  strong_topics : List String
  confidence_scores : List (String × ℤ)
  topic_performance : List (String × ℤ)
  last_updated : ℕ
deriving DecidableEq, Repr

/-- A user badge link document (models/UserBadge.js). -/
structure UserBadge where
  id : String
  user_id : String
  badge_id : String
  achieved_at : ℕ
deriving DecidableEq, Repr

/-- A badge catalog document. -/
structure Badge where
  id : String
  name : String
  description : String
deriving DecidableEq, Repr

/-- The single datastore holding every collection the embedded
controllers touch, plus the insight_runs event counter that counts the
background generateUserInsights enqueues. -/
structure DB where
  quizzes : List Quiz
  questions : List Question
  attempts : List Attempt
  answers : List AnswerRecord
  insights : List StoredInsight
  user_badges : List UserBadge
  badges : List Badge
  insight_runs : ℕ
deriving DecidableEq, Repr

/-- Update the first record matching the predicate, as Mongo updateOne
does. -/
def updateFirst (p : α → Bool) (f : α → α) : List α → List α
  | [] => []
  | x :: xs => if p x then f x :: xs else x :: updateFirst p f xs

/-- Validates the UUID format exactly as the isValidUUID helper in
quizAttemptController.js does with its case-insensitive regex:
8-4-4-4-12 hex digits, version digit 1-5 at index 14, variant digit
8/9/a/b at index 19. -/
def isHexDigit (c : Char) : Bool :=
  c.isDigit || ('a' ≤ c && c ≤ 'f') || ('A' ≤ c && c ≤ 'F')

def isValidUUID (s : String) : Bool :=
  let cs := s.toList
  cs.length == 36 &&
  (List.range 36).all (fun i =>
    let c := cs.getD i ' '
    if i == 8 || i == 13 || i == 18 || i == 23 then c == '-'
    else if i == 14 then '1' ≤ c && c ≤ '5'
    else if i == 19 then
      c == '8' || c == '9' || c == 'a' || c == 'b' || c == 'A' || c == 'B'
    else isHexDigit c)

/-- Error outcomes of submitQuizAnswer, one constructor per early-return
in quizAttemptController.js lines 180-225.  duplicateAnswer is the
error the spec taxonomy classifies as Conflict (duplicate submission),
attemptNotInProgress the Conflict for operating on a completed or
abandoned attempt. -/
inductive SubmitError
  | invalidAttemptIdFormat
  | invalidQuestionIdFormat
  | attemptNotFound
  | unauthorized
  | attemptNotInProgress
  | questionNotFound
  | questionQuizMismatch
  | duplicateAnswer
deriving DecidableEq, Repr

/-- Successful submitQuizAnswer response body (is_correct plus the new
answer record). -/
structure SubmitOk where
  is_correct : Bool
  answer : AnswerRecord
deriving DecidableEq, Repr

/-- Outcome of the first phase of submitQuizAnswer (validation plus the
QuizAttemptAnswer.create write). -/
inductive Phase1Result
  | err (e : SubmitError)
  | inserted (att : Attempt) (ans : AnswerRecord)
deriving DecidableEq, Repr

/-- Phase one of submitQuizAnswer (quizAttemptController.js lines
173-238): validate the ids, load the attempt, check ownership and
IN_PROGRESS status, load the question, check it belongs to the
attempted quiz, reject a duplicate (attempt_id, question_id) pair, then
compute is_correct by structural equality (JSON.stringify comparison of
string arrays, which coincides with list equality) and insert the new
answer record.  question_order defaults to 0 when absent, as in the
source (question_order || 0). -/
def submitPhase1 (db : DB) (attemptId question_id : String)
    (selected_answer : List String) (question_order : Option ℚ)
    (user_id newAnswerId : String) (now : ℕ) : DB × Phase1Result :=
  if ¬ isValidUUID attemptId then (db, .err .invalidAttemptIdFormat)
  else if question_id = "" then (db, .err .invalidQuestionIdFormat)
  else match db.attempts.find? (fun a => a.id == attemptId) with
  | none => (db, .err .attemptNotFound)
  | some attempt =>
    if attempt.user_id ≠ user_id then (db, .err .unauthorized)
    else if attempt.status ≠ .inProgress then (db, .err .attemptNotInProgress)
    else match db.questions.find? (fun q => q.id == question_id) with
    | none => (db, .err .questionNotFound)
    | some question =>
      if question.quiz_id ≠ attempt.quiz_id then (db, .err .questionQuizMismatch)
      else match db.answers.find?
          (fun a => a.attempt_id == attemptId && a.question_id == question_id) with
      | some _ => (db, .err .duplicateAnswer)
      | none =>
        let newAnswer : AnswerRecord :=
          { id := newAnswerId
            attempt_id := attemptId
            question_id := question_id
            question_order := question_order.getD 0
            selected_answer := selected_answer
            is_correct := decide (selected_answer = question.correct_answer)
            created_at := now }
        ({ db with answers := db.answers ++ [newAnswer] }, .inserted attempt newAnswer)

/-- Phase two of submitQuizAnswer (quizAttemptController.js lines
240-278): count the attempt record answers and the quiz questions; when
they agree, count the correct answers and update the attempt to
COMPLETED with score = (correctAnswers / questionsCount) * 100 (no
rounding in the source), total_questions, correct_answers and
completed_at, then enqueue a background generateUserInsights run
(modelled by the insight_runs increment). -/
def submitPhase2 (db : DB) (attemptId quizId : String) (now : ℕ) : DB :=
  let answersCount := db.answers.countP (fun a => a.attempt_id == attemptId)
  let questionsCount := db.questions.countP (fun q => q.quiz_id == quizId)
  if answersCount = questionsCount then
    let correctAnswers :=
      db.answers.countP (fun a => a.attempt_id == attemptId && a.is_correct)
    { db with
      attempts := updateFirst (fun a => a.id == attemptId)
        (fun a =>
          { a with
            status := .completed
            completed_at := some now
            score := some ((correctAnswers : ℚ) / (questionsCount : ℚ) * 100)
            total_questions := some (questionsCount : ℚ)
            correct_answers := some (correctAnswers : ℚ) }) db.attempts
      insight_runs := db.insight_runs + 1 }
  else db

/-- submitQuizAnswer, sequentially: phase one followed by phase two on
the resulting state.  The concurrency model below interleaves the same
two phases of several requests. -/
def submitQuizAnswer (db : DB) (attemptId question_id : String)
    (selected_answer : List String) (question_order : Option ℚ)
    (user_id newAnswerId : String) (now : ℕ) :
    DB × Except SubmitError SubmitOk :=
  match submitPhase1 db attemptId question_id selected_answer question_order
      user_id newAnswerId now with
  | (db1, .err e) => (db1, .error e)
  | (db1, .inserted att ans) =>
    (submitPhase2 db1 attemptId att.quiz_id now, .ok ⟨ans.is_correct, ans⟩)

/-! Concurrency model for submitQuizAnswer.  The source performs phase
one and phase two as separate awaited datastore operations with no
transaction, lock or compare-and-swap guarding the count-then-transition
sequence, so the datastore may interleave the phases of concurrent
requests arbitrarily.  A schedule is a list of request indices; each
occurrence runs the named request's next pending phase atomically.
Running a phase as one atomic block only restricts the schedules
considered, so any behaviour this model exhibits is a behaviour of the
source. -/

/-- Progress of one in-flight submitQuizAnswer request. -/
inductive ReqProgress
  | ready
  | midway (att : Attempt) (ans : AnswerRecord)
  | finished (r : Except SubmitError SubmitOk)
deriving Repr

/-- Arguments of one submitQuizAnswer request. -/
structure SubmitReq where
  attemptId : String
  question_id : String
  selected_answer : List String
  question_order : Option ℚ
  user_id : String
  newAnswerId : String
  now : ℕ
deriving DecidableEq, Repr

/-- Run the next pending phase of one request against the shared
datastore. -/
def stepReq (db : DB) (req : SubmitReq) : ReqProgress → DB × ReqProgress
  | .ready =>
    match submitPhase1 db req.attemptId req.question_id req.selected_answer
        req.question_order req.user_id req.newAnswerId req.now with
    | (db1, .err e) => (db1, .finished (.error e))
    | (db1, .inserted att ans) => (db1, .midway att ans)
  | .midway att ans =>
    (submitPhase2 db req.attemptId att.quiz_id req.now,
     .finished (.ok ⟨ans.is_correct, ans⟩))
  | .finished r => (db, .finished r)

/-- Run a schedule of phase steps over a family of concurrent
requests. -/
def runSchedule (reqs : List SubmitReq) :
    DB → List ReqProgress → List ℕ → DB × List ReqProgress
  | db, prog, [] => (db, prog)
  | db, prog, i :: rest =>
    match reqs.get? i, prog.get? i with
    | some req, some p =>
      let (db1, p1) := stepReq db req p
      runSchedule reqs db1 (prog.set i p1) rest
    | _, _ => runSchedule reqs db prog rest

/-- Error outcomes of the bulk createQuizAttempt endpoint
(quizAttemptController.js lines 9-164).  Validation failures inside the
transaction abort it (rollback); duplicateKey models the unique
(attempt_id, question_id) index rejecting insertMany. -/
inductive BulkError
  | emptyQuizId
  | invalidQuizIdFormat
  | quizNotFound
  | invalidQuestionIdFormat
  | questionNotFound (question_id : String)
  | questionQuizMismatch (question_id : String)
  | duplicateKey
deriving DecidableEq, Repr

/-- One element of the answers array of a bulk submission request. -/
structure BulkAnswerInput where
  question_id : String
  selected_answer : List String
deriving DecidableEq, Repr

/-- The bulk submission request body: quiz_id plus the caller-supplied
score, total_questions, correct_answers, time_taken and answers. -/
structure BulkRequest where
  quiz_id : String
  score : Option ℚ
  total_questions : Option ℚ
  correct_answers : Option ℚ
  time_taken : Option ℚ
  answers : List BulkAnswerInput
deriving DecidableEq, Repr

/-- Validate and prepare one answer of a bulk submission
(quizAttemptController.js lines 75-104): the question must exist and
belong to the submitted quiz; is_correct is computed by structural
equality of the selected and correct answer arrays.  The prepared
record carries the schema defaults question_order = 0 and created_at =
now. -/
def prepareAnswer (db : DB) (quiz_id attempt_id newId : String) (now : ℕ)
    (a : BulkAnswerInput) : Except BulkError AnswerRecord :=
  if a.question_id = "" then .error .invalidQuestionIdFormat
  else match db.questions.find? (fun q => q.id == a.question_id) with
  | none => .error (.questionNotFound a.question_id)
  | some question =>
    if question.quiz_id ≠ quiz_id then .error (.questionQuizMismatch a.question_id)
    else .ok
      { id := newId
        attempt_id := attempt_id
        question_id := a.question_id
        question_order := 0
        selected_answer := a.selected_answer
        is_correct := decide (a.selected_answer = question.correct_answer)
        created_at := now }

/-- Prepare every answer of a bulk submission; the first validation
failure aborts the whole transaction (Promise.all rejection inside
session.withTransaction). -/
def prepareAnswers (db : DB) (quiz_id attempt_id : String)
    (answerIds : ℕ → String) (now : ℕ) :
    List BulkAnswerInput → ℕ → Except BulkError (List AnswerRecord)
  | [], _ => .ok []
  | a :: rest, k =>
    match prepareAnswer db quiz_id attempt_id (answerIds k) now a with
    | .error e => .error e
    | .ok rec =>
      match prepareAnswers db quiz_id attempt_id answerIds now rest (k + 1) with
      | .error e => .error e
      | .ok recs => .ok (rec :: recs)

/-- Does inserting this record violate the unique
(attempt_id, question_id) index (models/Quiz.js line 166) against the
given existing records? -/
def pairClash (l : List AnswerRecord) (r : AnswerRecord) : Bool :=
  l.any (fun a => a.attempt_id == r.attempt_id && a.question_id == r.question_id)

/-- insertMany under the unique (attempt_id, question_id) index: insert
the records in order, failing (and aborting the surrounding
transaction) on the first index violation. -/
def insertMany (existing : List AnswerRecord) :
    List AnswerRecord → Option (List AnswerRecord)
  | [] => some existing
  | r :: rs =>
    if pairClash existing r then none else insertMany (existing ++ [r]) rs

/-- The bulk createQuizAttempt endpoint (quizAttemptController.js lines
9-164): validate quiz_id format and existence, then in one transaction
create the attempt directly in status COMPLETED carrying the
caller-supplied score, total_questions, correct_answers and time_taken
verbatim, validate and prepare every answer, and insert all answer
records; any failure inside the transaction rolls the whole operation
back, leaving the datastore unchanged.  On success a background
generateUserInsights run is enqueued (insight_runs increment). -/
def createQuizAttempt (db : DB) (req : BulkRequest)
    (user_id attemptIdNew : String) (answerIds : ℕ → String) (now : ℕ) :
    DB × Except BulkError Attempt :=
  if req.quiz_id = "" then (db, .error .emptyQuizId)
  else if ¬ isValidUUID req.quiz_id then (db, .error .invalidQuizIdFormat)
  else match db.quizzes.find? (fun q => q.id == req.quiz_id) with
  | none => (db, .error .quizNotFound)
  | some _ =>
    let newAttempt : Attempt :=
      { id := attemptIdNew
        user_id := user_id
        quiz_id := req.quiz_id
        status := .completed
        score := req.score
        total_questions := req.total_questions
        correct_answers := req.correct_answers
        time_taken := req.time_taken
        created_at := now
        completed_at := some now }
    match prepareAnswers db req.quiz_id attemptIdNew answerIds now req.answers 0 with
    | .error e => (db, .error e)
    | .ok recs =>
      match insertMany db.answers recs with
      | none => (db, .error .duplicateKey)
      | some newAnswers =>
        ({ db with
           attempts := db.attempts ++ [newAttempt]
           answers := newAnswers
           insight_runs := db.insight_runs + 1 }, .ok newAttempt)

/-! Insight engine: generateUserInsights in
utils/migrateAndCleanupTopics.js.  The per-topic dictionaries the
source accumulates in one pass over the answers (topicStats,
topicAttempts, recentAttemptsByTopic) are represented per key: the
entry of a topic is the sublist of joined answer details whose topic
matches, in answer-collection order, which is exactly what the
accumulation builds for that key. -/

/-- One joined answer as the insight engine sees it: correctness, the
owning attempt's timestamp, and the quiz difficulty with its weight. -/
structure AnswerDetail where
  is_correct : Bool
  timestamp : ℕ
  difficulty : String
  weight : ℚ
deriving DecidableEq, Repr

/-- Difficulty weight (migrateAndCleanupTopics.js lines 360-365):
MEDIUM weighs 1.5, HARD weighs 2.0, anything else (EASY) weighs 1.0. -/
def difficultyWeight (difficulty : String) : ℚ :=
  if difficulty = "MEDIUM" then 3/2
  else if difficulty = "HARD" then 2
  else 1

/-- The user's completed attempts, most recently completed first,
limited to 20 (migrateAndCleanupTopics.js lines 269-275).  Mongo sorts
by completed_at descending; a missing completed_at sorts last, modelled
by the default key 0. -/
def insightAttempts (db : DB) (userId : String) : List Attempt :=
  ((db.attempts.filter
      (fun a => a.user_id == userId && decide (a.status = .completed))).insertionSort
    (fun a b => b.completed_at.getD 0 ≤ a.completed_at.getD 0)).take 20

/-- The quizzes referenced by the analyzed attempts (the quizMap of
migrateAndCleanupTopics.js lines 283-294): a quiz outside this set is
treated as missing by the join. -/
def insightQuizzes (db : DB) (attempts : List Attempt) : List Quiz :=
  db.quizzes.filter (fun qz => attempts.any (fun att => att.quiz_id == qz.id))

/-- The timestamp the engine attaches to an answer
(migrateAndCleanupTopics.js lines 355-357): the owning attempt's
completed_at, falling back to its created_at, falling back to the
current time when the attempt is not among those analyzed. -/
def answerTimestamp (attempts : List Attempt) (ans : AnswerRecord) (now : ℕ) : ℕ :=
  match attempts.find? (fun a => a.id == ans.attempt_id) with
  | some att => att.completed_at.getD att.created_at
  | none => now

/-- Join one answer record to its question, quiz and topic
(migrateAndCleanupTopics.js lines 324-385), skipping it when the
question, the quiz or a nonempty topic is missing. -/
def joinAnswer (db : DB) (attempts : List Attempt) (quizzes : List Quiz)
    (now : ℕ) (ans : AnswerRecord) : Option (String × AnswerDetail) :=
  match db.questions.find? (fun q => q.id == ans.question_id) with
  | none => none
  | some question =>
    match quizzes.find? (fun qz => qz.id == question.quiz_id) with
    | none => none
    | some quiz =>
      if quiz.topic = "" then none
      else some (quiz.topic,
        { is_correct := ans.is_correct
          timestamp := answerTimestamp attempts ans now
          difficulty := quiz.difficulty
          weight := difficultyWeight quiz.difficulty })

/-- Every (topic, detail) pair the engine accumulates: the answers of
the analyzed attempts, joined, in collection order. -/
def insightPairs (db : DB) (userId : String) (now : ℕ) :
    List (String × AnswerDetail) :=
  let attempts := insightAttempts db userId
  let answers :=
    db.answers.filter (fun a => attempts.any (fun att => att.id == a.attempt_id))
  answers.filterMap (joinAnswer db attempts (insightQuizzes db attempts) now)

/-- The details accumulated for one topic, in accumulation order. -/
def detailsFor (pairs : List (String × AnswerDetail)) (topic : String) :
    List AnswerDetail :=
  (pairs.filter (fun p => p.1 == topic)).map Prod.snd

/-- Append a key if it is not present yet: the key set of a JavaScript
object in insertion order. -/
def keyInsert (ks : List String) (k : String) : List String :=
  if k ∈ ks then ks else ks ++ [k]

/-- The distinct keys of the accumulated dictionaries, in insertion
order. -/
def keysOf (l : List String) : List String := l.foldl keyInsert []

/-- The topics the engine iterates (Object.entries key order). -/
def topicKeys (pairs : List (String × AnswerDetail)) : List String :=
  keysOf (pairs.map Prod.fst)

/-- topicStats weightedTotal: the sum of the difficulty weights of a
topic's answers. -/
def weightedTotal (ds : List AnswerDetail) : ℚ :=
  (ds.map AnswerDetail.weight).sum

/-- topicStats weightedCorrect: the sum of the difficulty weights of a
topic's correct answers. -/
def weightedCorrect (ds : List AnswerDetail) : ℚ :=
  ((ds.filter AnswerDetail.is_correct).map AnswerDetail.weight).sum

/-- The weighted score the engine computes for a list of answer details
(migrateAndCleanupTopics.js line 408 and again lines 419-426 and
435-442): Math.round((weightedCorrect / weightedTotal) * 100). -/
def weightedScore (ds : List AnswerDetail) : ℤ :=
  jround (weightedCorrect ds / weightedTotal ds * 100)

/-- recentAttemptsByTopic after sorting: the topic's details sorted by
timestamp descending (stable), keeping the 10 most recent
(migrateAndCleanupTopics.js lines 388-395). -/
def recentDetails (ds : List AnswerDetail) : List AnswerDetail :=
  (ds.insertionSort (fun a b => b.timestamp ≤ a.timestamp)).take 10

/-- olderAttempts: the topic's details sorted by timestamp ascending
with the trailing recentDetails count removed (slice(0, -recent.length),
migrateAndCleanupTopics.js lines 429-431). -/
def olderDetails (ds : List AnswerDetail) : List AnswerDetail :=
  let asc := ds.insertionSort (fun a b => a.timestamp ≤ b.timestamp)
  asc.take (asc.length - (recentDetails ds).length)

/-- The confidence score of one qualifying topic
(migrateAndCleanupTopics.js lines 413-453): start from the proficiency
score; when at least 3 recent attempts exist, blend it with the recent
weighted score and the improvement trend (recent minus older weighted
score when at least 3 older attempts exist, else 0) as
round(score * 0.6 + recentScore * 0.3 + trendFactor * 0.1), clamped to
[0, 100]. -/
def confidenceFor (ds : List AnswerDetail) : ℤ :=
  let score := weightedScore ds
  let recents := recentDetails ds
  if 3 ≤ recents.length then
    let recentScore := weightedScore recents
    let older := olderDetails ds
    let trendFactor : ℤ :=
      if 3 ≤ older.length then recentScore - weightedScore older else 0
    max 0 (min 100
      (jround ((score : ℚ) * (6/10) + (recentScore : ℚ) * (3/10)
        + (trendFactor : ℚ) * (1/10))))
  else score

/-- The insight snapshot generateUserInsights computes and saves
(topic_performance is the Map mirror of topic_proficiency,
migrateAndCleanupTopics.js lines 480-495). -/
structure Insight where
  user_id : String
  weak_topics : List String
  strong_topics : List String
  confidence_scores : List (String × ℤ)
  topic_performance : List (String × ℤ)
  topic_proficiency : List (String × ℤ)
  weak_topics_data : List (String × ℤ)
  last_updated : ℕ
deriving DecidableEq, Repr

/-- generateUserInsights (migrateAndCleanupTopics.js lines 264-507):
returns null when the user has no completed attempt; otherwise joins
the answers of the 20 most recent completed attempts and, for each
topic with at least 3 graded answers, emits the weighted proficiency
score, the confidence score, and the weak (score < 60) or strong
(score >= 80) classification; topics with fewer than 3 graded answers
are skipped everywhere. -/
def generateUserInsights (db : DB) (userId : String) (now : ℕ) : Option Insight :=
  let attempts := insightAttempts db userId
  if attempts.isEmpty then none
  else
    let pairs := insightPairs db userId now
    let keys := topicKeys pairs
    let proficiency := keys.filterMap (fun t =>
      if (detailsFor pairs t).length < 3 then none
      else some (t, weightedScore (detailsFor pairs t)))
    let confidences := keys.filterMap (fun t =>
      if (detailsFor pairs t).length < 3 then none
      else some (t, confidenceFor (detailsFor pairs t)))
    let weak := keys.filterMap (fun t =>
      if (detailsFor pairs t).length < 3 then none
      else if weightedScore (detailsFor pairs t) < 60 then some t else none)
    let strong := keys.filterMap (fun t =>
      if (detailsFor pairs t).length < 3 then none
      else if weightedScore (detailsFor pairs t) < 60 then none
      else if 80 ≤ weightedScore (detailsFor pairs t) then some t else none)
    let weakData := weak.filterMap (fun t =>
      (List.lookup t proficiency).map (fun v => (t, v)))
    some
      { user_id := userId
        weak_topics := weak
        strong_topics := strong
        confidence_scores := confidences
        topic_performance := proficiency
        topic_proficiency := proficiency
        weak_topics_data := weakData
        last_updated := now }

/-! Dashboard projector: getDashboardData in
controllers/dashboardController.js. -/

/-- One row of the dashboard performance history
(dashboardController.js lines 40-47). -/
structure PerformanceEntry where
  id : String
  quiz_id : String
  score : Option ℚ
  correct_answers : Option ℚ
  total_questions : Option ℚ
  date : ℕ
deriving DecidableEq, Repr

/-- One badge achievement row (dashboardController.js lines 59-68). -/
structure BadgeAchievement where
  id : String
  badge_id : String
  name : String
  description : String
  achieved_at : ℕ
deriving DecidableEq, Repr

/-- The dashboard response body (dashboardController.js lines
123-136). -/
structure DashboardData where
  weak_topics_array : List String
  strong_topics : List String
  confidence_scores : List (String × ℤ)
  topic_proficiency : List (String × ℤ)
  weak_topics : List (String × ℤ)
  performance_history : List PerformanceEntry
  badges : List BadgeAchievement
  insight_last_updated : Option ℕ
deriving DecidableEq, Repr

/-- The only request-path error of getDashboardData: requesting another
user's dashboard. -/
inductive DashError
  | unauthorized
deriving DecidableEq, Repr

/-- MLInsight.findOne({user_id}).sort({last_updated: -1}): the user's
insight document with the greatest last_updated, if any. -/
def latestInsight (db : DB) (userId : String) : Option StoredInsight :=
  ((db.insights.filter (fun i => i.user_id == userId)).insertionSort
    (fun a b => b.last_updated ≤ a.last_updated)).head?

/-- The user's 10 most recently completed attempts
(dashboardController.js lines 31-37). -/
def dashboardAttempts (db : DB) (userId : String) : List Attempt :=
  ((db.attempts.filter
      (fun a => a.user_id == userId && decide (a.status = .completed))).insertionSort
    (fun a b => b.completed_at.getD 0 ≤ a.completed_at.getD 0)).take 10

/-- The per-entry range validation of dashboardController.js lines
106-120: any score outside [0, 100] is replaced by 0. -/
def validateScores (l : List (String × ℤ)) : List (String × ℤ) :=
  l.map (fun p => (p.1, if p.2 < 0 ∨ 100 < p.2 then 0 else p.2))

/-- getDashboardData (dashboardController.js lines 13-146).  Only the
requesting user's own dashboard is served.  Persisted MLInsight
documents carry no topic_proficiency or weak_topics_data paths (the
schema is strict), so the source's undefined-checks at lines 76 and 92
fall through to the topic_performance Map and to rebuilding the weak
topic data from weak_topics; with no insight document at all, every
insight-derived field defaults to its empty value and
insight_last_updated to null.  The response is always a success for an
own-dashboard request. -/
def getDashboardData (db : DB) (userId requestingUserId : String) :
    Except DashError DashboardData :=
  if userId ≠ requestingUserId then .error .unauthorized
  else
    let mlInsight := latestInsight db userId
    let performanceHistory := (dashboardAttempts db userId).map (fun a =>
      { id := a.id
        quiz_id := a.quiz_id
        score := a.score
        correct_answers := a.correct_answers
        total_questions := a.total_questions
        date := a.completed_at.getD a.created_at : PerformanceEntry })
    let userBadges :=
      (db.user_badges.filter (fun ub => ub.user_id == userId)).insertionSort
        (fun a b => b.achieved_at ≤ a.achieved_at)
    let foundBadges :=
      db.badges.filter (fun b => userBadges.any (fun ub => ub.badge_id == b.id))
    let badgeAchievements := userBadges.map (fun ub =>
      match foundBadges.find? (fun b => b.id == ub.badge_id) with
      | some bd =>
        { id := ub.id
          badge_id := ub.badge_id
          name := if bd.name = "" then "Unknown Badge" else bd.name
          description := bd.description
          achieved_at := ub.achieved_at : BadgeAchievement }
      | none =>
        { id := ub.id
          badge_id := ub.badge_id
          name := "Unknown Badge"
          description := ""
          achieved_at := ub.achieved_at : BadgeAchievement })
    let topicProficiency0 : List (String × ℤ) :=
      match mlInsight with
      | none => []
      | some ins => ins.topic_performance
    let weakTopicsData0 : List (String × ℤ) :=
      match mlInsight with
      | none => []
      | some ins =>
        if ins.weak_topics.isEmpty then []
        else ins.weak_topics.filterMap (fun t =>
          (List.lookup t topicProficiency0).map (fun v => (t, v)))
    let topicProficiency := validateScores topicProficiency0
    let weakTopicsData := validateScores weakTopicsData0
    .ok
      { weak_topics_array := (mlInsight.map StoredInsight.weak_topics).getD []
        strong_topics := (mlInsight.map StoredInsight.strong_topics).getD []
        confidence_scores := (mlInsight.map StoredInsight.confidence_scores).getD []
        topic_proficiency := if topicProficiency.isEmpty then [] else topicProficiency
        weak_topics := if weakTopicsData.isEmpty then [] else weakTopicsData
        performance_history := performanceHistory
        badges := badgeAchievements
        insight_last_updated := mlInsight.map StoredInsight.last_updated }

/-! Concrete fixtures used by the counterexamples and witnesses. -/

/-- A well-formed quiz id (matches the controller's UUID regex). -/
def quiz1id : String := "11111111-1111-4111-8111-111111111111"

/-- A well-formed attempt id. -/
def at1id : String := "aaaaaaaa-aaaa-4aaa-8aaa-aaaaaaaaaaaa"

def fixQuiz : Quiz := { id := quiz1id, topic := "Algebra", difficulty := "EASY" }

def fixQuestions : List Question :=
  [ { id := "q1", quiz_id := quiz1id, correct_answer := ["A"] },
    { id := "q2", quiz_id := quiz1id, correct_answer := ["B"] },
    { id := "q3", quiz_id := quiz1id, correct_answer := ["C"] } ]

def fixAttempt : Attempt :=
  { id := at1id, user_id := "u1", quiz_id := quiz1id, status := .inProgress,
    score := none, total_questions := none, correct_answers := none,
    time_taken := none, created_at := 1, completed_at := none }

def fixAnswer1 : AnswerRecord :=
  { id := "a1", attempt_id := at1id, question_id := "q1", question_order := 0,
    selected_answer := ["A"], is_correct := true, created_at := 2 }

def fixAnswer2 : AnswerRecord :=
  { id := "a2", attempt_id := at1id, question_id := "q2", question_order := 0,
    selected_answer := ["X"], is_correct := false, created_at := 3 }

/-- A 3-question quiz attempt with two answers already recorded (one
correct, one wrong): submitting the third, correct answer completes it
with 2 of 3 correct. -/
def fixDB : DB :=
  { quizzes := [fixQuiz], questions := fixQuestions, attempts := [fixAttempt],
    answers := [fixAnswer1, fixAnswer2], insights := [], user_badges := [],
    badges := [], insight_runs := 0 }

/-- The run that completes fixDB's attempt: third answer, correct. -/
def c1run : DB × Except SubmitError SubmitOk :=
  submitQuizAnswer fixDB at1id "q3" ["C"] none "u1" "a3" 10

/-- The attempt record as the completing update leaves it: score is the
unrounded (correctAnswers / questionsCount) * 100. -/
def c1att : Attempt :=
  { id := at1id, user_id := "u1", quiz_id := quiz1id, status := .completed,
    score := some (((2 : ℕ) : ℚ) / ((3 : ℕ) : ℚ) * 100),
    total_questions := some ((3 : ℕ) : ℚ),
    correct_answers := some ((2 : ℕ) : ℚ),
    time_taken := none, created_at := 1, completed_at := some 10 }

/-- The same 3-question quiz with only the first answer recorded: the
remaining two questions are the "final two answers" of the race
scenario. -/
def c2db : DB :=
  { quizzes := [fixQuiz], questions := fixQuestions, attempts := [fixAttempt],
    answers := [fixAnswer1], insights := [], user_badges := [],
    badges := [], insight_runs := 0 }

/-- Concurrent request A: the second answer. -/
def c2reqA : SubmitReq :=
  { attemptId := at1id, question_id := "q2", selected_answer := ["B"],
    question_order := none, user_id := "u1", newAnswerId := "b2", now := 20 }

/-- Concurrent request B: the third answer. -/
def c2reqB : SubmitReq :=
  { attemptId := at1id, question_id := "q3", selected_answer := ["C"],
    question_order := none, user_id := "u1", newAnswerId := "b3", now := 21 }

/-- A second quiz whose question is referenced by the invalid bulk
submission. -/
def quiz2id : String := "22222222-2222-4222-8222-222222222222"

def c3db : DB :=
  { quizzes := [fixQuiz, { id := quiz2id, topic := "Geometry", difficulty := "HARD" }],
    questions := fixQuestions ++
      [ { id := "qb", quiz_id := quiz2id, correct_answer := ["D"] } ],
    attempts := [], answers := [], insights := [], user_badges := [],
    badges := [], insight_runs := 0 }

/-- A bulk submission against quiz 1 whose second answer references a
question of quiz 2. -/
def c3req : BulkRequest :=
  { quiz_id := quiz1id, score := some 50, total_questions := some 2,
    correct_answers := some 1, time_taken := some 30,
    answers := [ { question_id := "q1", selected_answer := ["A"] },
                 { question_id := "qb", selected_answer := ["D"] } ] }

/-- A multi-select question whose correct answer is the ordered pair
A, B. -/
def c8db : DB :=
  { quizzes := [fixQuiz],
    questions := [ { id := "qm", quiz_id := quiz1id, correct_answer := ["A", "B"] },
                   { id := "q2", quiz_id := quiz1id, correct_answer := ["B"] } ],
    attempts := [fixAttempt], answers := [], insights := [], user_badges := [],
    badges := [], insight_runs := 0 }

/-- Submitting the multi-select answer in the reverse order. -/
def c8run : DB × Except SubmitError SubmitOk :=
  submitQuizAnswer c8db at1id "qm" ["B", "A"] none "u1" "m1" 30

/-- The answer record that run inserts: is_correct is the structural
comparison of the two differently-ordered lists. -/
def c8ans : AnswerRecord :=
  { id := "m1", attempt_id := at1id, question_id := "qm", question_order := 0,
    selected_answer := ["B", "A"],
    is_correct := decide ((["B", "A"] : List String) = ["A", "B"]),
    created_at := 30 }

/-- An insight fixture: one completed attempt on an EASY Algebra quiz
with five graded answers, three of them correct. -/
def c5attempt : Attempt :=
  { id := "ca1", user_id := "u5", quiz_id := quiz1id, status := .completed,
    score := some 60, total_questions := some 5, correct_answers := some 3,
    time_taken := some 40, created_at := 50, completed_at := some 100 }

def c5questions : List Question :=
  [ { id := "k1", quiz_id := quiz1id, correct_answer := ["A"] },
    { id := "k2", quiz_id := quiz1id, correct_answer := ["A"] },
    { id := "k3", quiz_id := quiz1id, correct_answer := ["A"] },
    { id := "k4", quiz_id := quiz1id, correct_answer := ["A"] },
    { id := "k5", quiz_id := quiz1id, correct_answer := ["A"] } ]

def c5answer (i : ℕ) (qid : String) (ok : Bool) : AnswerRecord :=
  { id := "ca1-" ++ qid, attempt_id := "ca1", question_id := qid,
    question_order := (i : ℚ), selected_answer := [if ok then "A" else "Z"],
    is_correct := ok, created_at := 50 + i }

def c5db : DB :=
  { quizzes := [fixQuiz], questions := c5questions, attempts := [c5attempt],
    answers := [ c5answer 1 "k1" true, c5answer 2 "k2" true,
                 c5answer 3 "k3" true, c5answer 4 "k4" false,
                 c5answer 5 "k5" false ],
    insights := [], user_badges := [], badges := [], insight_runs := 0 }

/-- The insight snapshot computed over c5db, extracted from the engine
itself. -/
def c5ins : Insight :=
  (generateUserInsights c5db "u5" 200).getD
    { user_id := "", weak_topics := [], strong_topics := [],
      confidence_scores := [], topic_performance := [],
      topic_proficiency := [], weak_topics_data := [], last_updated := 0 }

/-- A dashboard fixture with no insight snapshot and one completed
attempt. -/
def c9db : DB :=
  { quizzes := [fixQuiz], questions := fixQuestions,
    attempts := [ { id := "da1", user_id := "u9", quiz_id := quiz1id,
                    status := .completed, score := some 80,
                    total_questions := some 3, correct_answers := some 2,
                    time_taken := some 12, created_at := 5, completed_at := some 9 } ],
    answers := [], insights := [], user_badges := [], badges := [],
    insight_runs := 0 }

/-- A bulk submission carrying out-of-range and inconsistent score
fields. -/
def c10req : BulkRequest :=
  { quiz_id := quiz1id, score := some 999, total_questions := some 1,
    correct_answers := some 42, time_taken := some (-5),
    answers := [ { question_id := "q1", selected_answer := ["A"] } ] }

def c10question : Question :=
  { id := "q1", quiz_id := quiz1id, correct_answer := ["A"] }

def c10db : DB :=
  { quizzes := [fixQuiz], questions := [c10question],
    attempts := [], answers := [], insights := [], user_badges := [],
    badges := [], insight_runs := 0 }

/-- The claimed uniqueness invariant: no two answer records share the
(attempt_id, question_id) pair. -/
def PairUnique (l : List AnswerRecord) : Prop :=
  l.Pairwise (fun a b => ¬ (a.attempt_id = b.attempt_id ∧ a.question_id = b.question_id))

instance pairUniqueDec (l : List AnswerRecord) : Decidable (PairUnique l) :=
  List.instDecidablePairwise l

/-- The attempt record the bulk fixture produces: every caller-supplied
field stored verbatim. -/
def c10att : Attempt :=
  { id := "na1", user_id := "u1", quiz_id := quiz1id, status := .completed,
    score := some 999, total_questions := some 1, correct_answers := some 42,
    time_taken := some (-5), created_at := 7, completed_at := some 7 }


/-! Helper lemmas. -/

theorem find?_updateFirst (p : α → Bool) (f : α → α) (hp : ∀ x, p (f x) = p x) :
    ∀ l : List α, (updateFirst p f l).find? p = (l.find? p).map f := by
  intro l
  induction l with
  | nil => rfl
  | cons x xs ih =>
    by_cases hx : p x
    · simp [updateFirst, hx, List.find?_cons, hp]
    · simp [updateFirst, hx, List.find?_cons, ih]

theorem submitPhase2_answers (db : DB) (aid qz : String) (now : ℕ) :
    (submitPhase2 db aid qz now).answers = db.answers := by
  simp only [submitPhase2]
  split <;> rfl

theorem submitPhase1_err (db db1 : DB) (aid qid : String) (sel : List String)
    (ord : Option ℚ) (uid nid : String) (now : ℕ) (e : SubmitError)
    (h : submitPhase1 db aid qid sel ord uid nid now = (db1, .err e)) : db1 = db := by
  unfold submitPhase1 at h
  split at h <;> try (simp_all; done)
  split at h <;> try (simp_all; done)
  split at h
  · simp_all
  · split at h <;> try (simp_all; done)
    split at h <;> try (simp_all; done)
    split at h
    · simp_all
    · split at h <;> try (simp_all; done)
      split at h <;> simp_all

theorem submitPhase1_inserted (db db1 : DB) (aid qid : String) (sel : List String)
    (ord : Option ℚ) (uid nid : String) (now : ℕ) (att : Attempt) (ans : AnswerRecord)
    (h : submitPhase1 db aid qid sel ord uid nid now = (db1, .inserted att ans)) :
    db1 = { db with answers := db.answers ++ [ans] } ∧
    db.attempts.find? (fun a => a.id == aid) = some att ∧
    att.status = .inProgress ∧
    ans.attempt_id = aid ∧ ans.question_id = qid ∧ ans.selected_answer = sel ∧
    db.answers.find? (fun a => a.attempt_id == aid && a.question_id == qid) = none ∧
    (∃ q, db.questions.find? (fun x => x.id == qid) = some q ∧
      ans.is_correct = decide (sel = q.correct_answer)) := by
  unfold submitPhase1 at h
  split at h <;> try (simp_all; done)
  split at h <;> try (simp_all; done)
  split at h
  · simp_all
  · rename_i attempt hfind
    split at h <;> try (simp_all; done)
    split at h <;> try (simp_all; done)
    split at h
    · simp_all
    · rename_i question hqfind
      split at h <;> try (simp_all; done)
      split at h
      · simp_all
      · rename_i hdup
        simp only [Prod.mk.injEq, Phase1Result.inserted.injEq] at h
        obtain ⟨hdb, hatt, hans⟩ := h
        subst hdb hatt hans
        simp_all

theorem prepareAnswers_ok_valid (db : DB) (qz aid : String) (ids : ℕ → String) (now : ℕ) :
    ∀ (answers : List BulkAnswerInput) (k : ℕ) (recs : List AnswerRecord),
      prepareAnswers db qz aid ids now answers k = .ok recs →
      ∀ a ∈ answers, ∃ q, db.questions.find? (fun x => x.id == a.question_id) = some q ∧
        q.quiz_id = qz := by
  intro answers
  induction answers with
  | nil => intro k recs h a ha; exact absurd ha (List.not_mem_nil a)
  | cons b rest ih =>
    intro k recs h a ha
    unfold prepareAnswers at h
    split at h
    · simp_all
    · rename_i rec hprep
      split at h
      · simp_all
      · rename_i recs2 hrest
        rcases List.mem_cons.mp ha with hab | hmem
        · subst hab
          unfold prepareAnswer at hprep
          split at hprep
          · simp_all
          · split at hprep
            · simp_all
            · rename_i q hqf
              split at hprep
              · simp_all
              · rename_i hmatch
                exact ⟨q, hqf, not_not.mp (fun hne => hmatch hne)⟩
        · exact ih (k + 1) recs2 hrest a hmem

theorem insertMany_pairUnique :
    ∀ (rs existing out : List AnswerRecord), PairUnique existing →
      insertMany existing rs = some out → PairUnique out := by
  intro rs
  induction rs with
  | nil =>
    intro existing out hu h
    simp only [insertMany, Option.some.injEq] at h
    subst h
    exact hu
  | cons r rest ih =>
    intro existing out hu h
    unfold insertMany at h
    split at h
    · simp_all
    · rename_i hclash
      refine ih (existing ++ [r]) out ?_ h
      unfold PairUnique at hu ⊢
      rw [List.pairwise_append]
      refine ⟨hu, List.pairwise_singleton _ _, ?_⟩
      intro a hma b hmb
      simp only [List.mem_singleton] at hmb
      subst hmb
      intro hcontra
      obtain ⟨h1, h2⟩ := hcontra
      apply hclash
      unfold pairClash
      rw [List.any_eq_true]
      exact ⟨a, hma, by simp [h1, h2]⟩

theorem mem_keyInsert {ks : List String} {a k : String} :
    a ∈ keyInsert ks k ↔ a ∈ ks ∨ a = k := by
  unfold keyInsert
  split
  · rename_i hk
    constructor
    · intro h; exact Or.inl h
    · intro h
      rcases h with h | h
      · exact h
      · exact h ▸ hk
  · simp [List.mem_append]

theorem mem_keysOf_aux (l : List String) :
    ∀ (acc : List String) (a : String),
      a ∈ l.foldl keyInsert acc ↔ a ∈ acc ∨ a ∈ l := by
  induction l with
  | nil => simp
  | cons x xs ih =>
    intro acc a
    simp only [List.foldl_cons]
    rw [ih, mem_keyInsert]
    simp only [List.mem_cons]
    tauto

theorem mem_keysOf {l : List String} {a : String} : a ∈ keysOf l ↔ a ∈ l := by
  unfold keysOf
  rw [mem_keysOf_aux]
  simp

theorem lookup_filterMap_of_mem {β : Type} (fn : String → Option (String × β))
    (hfst : ∀ k p, fn k = some p → p.1 = k) :
    ∀ (keys : List String) (t : String) (b : β), t ∈ keys → fn t = some (t, b) →
      List.lookup t (keys.filterMap fn) = some b := by
  intro keys
  induction keys with
  | nil => intro t b h; exact absurd h (List.not_mem_nil t)
  | cons k ks ih =>
    intro t b hmem hfn
    by_cases hkt : k = t
    · subst hkt
      simp only [List.filterMap_cons, hfn]
      simp [List.lookup]
    · have hmem2 : t ∈ ks := by
        rcases List.mem_cons.mp hmem with h | h
        · exact absurd h.symm hkt
        · exact h
      simp only [List.filterMap_cons]
      cases hfk : fn k with
      | none => exact ih t b hmem2 hfn
      | some p =>
        obtain ⟨p1, p2⟩ := p
        have hp1 : p1 = k := hfst k (p1, p2) hfk
        subst hp1
        have hbeq : (t == p1) = false := beq_eq_false_iff_ne.mpr (fun he => hkt he.symm)
        simp only [List.lookup, hbeq]
        exact ih t b hmem2 hfn

theorem lookup_filterMap_some {β : Type} (fn : String → Option (String × β))
    (hfst : ∀ k p, fn k = some p → p.1 = k) :
    ∀ (keys : List String) (t : String) (b : β),
      List.lookup t (keys.filterMap fn) = some b → fn t = some (t, b) := by
  intro keys
  induction keys with
  | nil => intro t b h; simp [List.filterMap] at h
  | cons k ks ih =>
    intro t b h
    simp only [List.filterMap_cons] at h
    cases hfk : fn k with
    | none => rw [hfk] at h; exact ih t b h
    | some p =>
      rw [hfk] at h
      obtain ⟨p1, p2⟩ := p
      have hp1 : p1 = k := hfst k (p1, p2) hfk
      subst hp1
      by_cases htk : t = p1
      · subst htk
        simp only [List.lookup, beq_self_eq_true] at h
        simp only [Option.some.injEq] at h
        subst h
        exact hfk
      · have hbeq : (t == p1) = false := beq_eq_false_iff_ne.mpr htk
        simp only [List.lookup, hbeq] at h
        exact ih t b h

theorem mem_topicKeys_of_pos {pairs : List (String × AnswerDetail)} {t : String}
    (h : 0 < (detailsFor pairs t).length) : t ∈ topicKeys pairs := by
  unfold detailsFor at h
  rw [List.length_map] at h
  obtain ⟨p, hp⟩ := List.exists_mem_of_length_pos h
  have hmem := List.mem_filter.mp hp
  unfold topicKeys
  rw [mem_keysOf, List.mem_map]
  refine ⟨p, hmem.1, ?_⟩
  have hpt := hmem.2
  simpa using hpt

theorem insightAttempts_nonempty {db : DB} {u : String} {now : ℕ}
    (h : insightPairs db u now ≠ []) :
    (insightAttempts db u).isEmpty = false := by
  by_contra hemp
  rw [Bool.not_eq_false, List.isEmpty_iff] at hemp
  apply h
  simp only [insightPairs, hemp]
  simp

theorem joinAnswer_weight {db : DB} {atts : List Attempt} {qzs : List Quiz}
    {now : ℕ} {ans : AnswerRecord} {p : String × AnswerDetail}
    (h : joinAnswer db atts qzs now ans = some p) :
    p.2.weight = difficultyWeight p.2.difficulty := by
  unfold joinAnswer at h
  split at h
  · simp_all
  · split at h
    · simp_all
    · split at h
      · simp_all
      · simp only [Option.some.injEq] at h
        subst h
        rfl

theorem detailsFor_weights {db : DB} {u : String} {now : ℕ} {t : String} :
    ∀ d ∈ detailsFor (insightPairs db u now) t,
      d.weight = difficultyWeight d.difficulty := by
  intro d hd
  unfold detailsFor at hd
  rw [List.mem_map] at hd
  obtain ⟨p, hpf, hpd⟩ := hd
  have hpm := (List.mem_filter.mp hpf).1
  unfold insightPairs at hpm
  rw [List.mem_filterMap] at hpm
  obtain ⟨ans, hans, hjoin⟩ := hpm
  have hw := joinAnswer_weight hjoin
  rw [hpd] at hw
  exact hw

theorem recentDetails_length (ds : List AnswerDetail) :
    (recentDetails ds).length = min 10 ds.length := by
  unfold recentDetails
  rw [List.length_take, List.length_insertionSort]

/-! Claim theorems. -/

/-- C1, counterexample: the claim states that every Completed attempt
carries score = round(correct_answers / total_questions * 100).  On the
concrete run that completes a 3-question attempt with 2 correct
answers, the source stores the unrounded (2/3)*100 = 200/3, which is
not the claimed round((2/3)*100) = 67. -/
theorem submit_score_not_rounded_cex :
    ∃ att, c1run.1.attempts.find? (fun a => a.id == at1id) = some att
      ∧ att.status = AttemptStatus.completed
      ∧ att.correct_answers = some ((2 : ℕ) : ℚ)
      ∧ att.total_questions = some ((3 : ℕ) : ℚ)
      ∧ jround (((2 : ℕ) : ℚ) / ((3 : ℕ) : ℚ) * 100) = 67
      ∧ att.score ≠ some ((67 : ℤ) : ℚ) :=
  ⟨c1att, rfl, rfl, rfl, rfl, by norm_num [jround], by
    show some (((2 : ℕ) : ℚ) / ((3 : ℕ) : ℚ) * 100) ≠ some ((67 : ℤ) : ℚ)
    norm_num⟩

/-- C1, amended: when the final-answer transition of AnswerRecorder
completes an attempt, the persisted score is exactly
(correct_answers / total_questions) * 100, without rounding; an attempt
created by BulkAttemptSubmitter carries the caller-supplied score
verbatim. -/
theorem completed_score_formula :
    (∀ (db : DB) (aid qid : String) (sel : List String) (ord : Option ℚ)
       (uid nid : String) (now : ℕ) (db2 : DB) (res : SubmitOk) (att : Attempt),
       submitQuizAnswer db aid qid sel ord uid nid now = (db2, .ok res) →
       db2.attempts.find? (fun a => a.id == aid) = some att →
       att.status = .completed →
       ∃ c t : ℕ, att.correct_answers = some (c : ℚ) ∧
         att.total_questions = some (t : ℚ) ∧
         att.score = some ((c : ℚ) / (t : ℚ) * 100)) ∧
    (∀ (db : DB) (req : BulkRequest) (uid aid : String) (ids : ℕ → String) (now : ℕ)
       (db2 : DB) (att : Attempt),
       createQuizAttempt db req uid aid ids now = (db2, .ok att) →
       att.score = req.score) := by
  constructor
  · intro db aid qid sel ord uid nid now db2 res att h hfind2 hstat
    unfold submitQuizAnswer at h
    split at h
    · simp_all
    · rename_i db1 att0 ans hph1
      obtain ⟨hdb1, hfind, hst, haid, hqid, hsel, hnone, hq⟩ :=
        submitPhase1_inserted db db1 aid qid sel ord uid nid now att0 ans hph1
      simp only [Prod.mk.injEq, Except.ok.injEq] at h
      obtain ⟨hdb2, hres⟩ := h
      subst hdb2
      simp only [submitPhase2] at hfind2
      split at hfind2
      · rename_i hcnt
        dsimp only at hfind2
        rw [find?_updateFirst] at hfind2
        · have hattempts : db1.attempts = db.attempts := by rw [hdb1]
          rw [hattempts, hfind] at hfind2
          simp only [Option.map_some', Option.some.injEq] at hfind2
          subst hfind2
          exact ⟨_, _, rfl, rfl, rfl⟩
        · intro x; rfl
      · have hattempts : db1.attempts = db.attempts := by rw [hdb1]
        rw [hattempts, hfind] at hfind2
        simp only [Option.some.injEq] at hfind2
        subst hfind2
        rw [hst] at hstat
        exact absurd hstat (by simp)
  · intro db req uid aid ids now db2 att h
    unfold createQuizAttempt at h
    split at h
    · simp_all
    · split at h
      · simp_all
      · split at h
        · simp_all
        · split at h
          · simp_all
          · split at h
            · simp_all
            · simp only [Prod.mk.injEq, Except.ok.injEq] at h
              obtain ⟨hdb, hatt⟩ := h
              subst hatt
              rfl

/-- C1, witness: the amended statement applied to the concrete
completing run (2 of 3 correct, score 200/3) and to a concrete bulk
submission carrying score 999. -/
theorem completed_score_formula_witness :
    (∃ c t : ℕ, c1att.correct_answers = some (c : ℚ) ∧
      c1att.total_questions = some (t : ℚ) ∧
      c1att.score = some ((c : ℚ) / (t : ℚ) * 100)) ∧
    c10att.score = c10req.score :=
  ⟨completed_score_formula.1 fixDB at1id "q3" ["C"] none "u1" "a3" 10 c1run.1
    ⟨true, { id := "a3", attempt_id := at1id, question_id := "q3", question_order := 0,
             selected_answer := ["C"], is_correct := true, created_at := 10 }⟩
    c1att rfl rfl rfl,
   completed_score_formula.2 c10db c10req "u1" "na1" (fun _ => "bk") 7
    (createQuizAttempt c10db c10req "u1" "na1" (fun _ => "bk") 7).1 c10att rfl⟩

/-- C2: the source checks the answer count and performs the completion
update without any per-attempt serialization, so when the last two
answers of a 3-question attempt are submitted concurrently, the
interleaving that runs both inserts before either count makes both
requests execute the completion update: the completion block (and its
insight-run enqueue) runs twice instead of exactly once, while a fully
sequential schedule runs it once.  No transition is lost: the attempt
still ends Completed. -/
theorem concurrent_last_answers_double_completion :
    (runSchedule [c2reqA, c2reqB] c2db [.ready, .ready] [0, 1, 0, 1]).1.insight_runs = 2 ∧
    (runSchedule [c2reqA, c2reqB] c2db [.ready, .ready] [0, 0, 1, 1]).1.insight_runs = 1 ∧
    ∀ a ∈ (runSchedule [c2reqA, c2reqB] c2db [.ready, .ready] [0, 1, 0, 1]).1.attempts,
      a.status = AttemptStatus.completed := by decide

/-- C3: when any answer of a bulk submission references a question that
does not exist or that belongs to a different quiz, the whole operation
rolls back: the datastore is unchanged (no Attempt and no AnswerRecord
is persisted) and an error is returned. -/
theorem bulk_invalid_answer_rolls_back :
    ∀ (db : DB) (req : BulkRequest) (uid aid : String) (ids : ℕ → String) (now : ℕ),
      (∃ a ∈ req.answers, ∀ q,
        db.questions.find? (fun x => x.id == a.question_id) = some q →
        q.quiz_id ≠ req.quiz_id) →
      (createQuizAttempt db req uid aid ids now).1 = db ∧
      ∃ e, (createQuizAttempt db req uid aid ids now).2 = .error e := by
  intro db req uid aid ids now hbad0
  obtain ⟨a, ha, hbad⟩ := hbad0
  unfold createQuizAttempt
  split
  · exact ⟨rfl, _, rfl⟩
  · split
    · exact ⟨rfl, _, rfl⟩
    · split
      · exact ⟨rfl, _, rfl⟩
      · split
        · exact ⟨rfl, _, rfl⟩
        · rename_i recs hprep
          obtain ⟨q, hqf, hqz⟩ := prepareAnswers_ok_valid db req.quiz_id aid ids now
            req.answers 0 recs hprep a ha
          exact absurd hqz (hbad q hqf)

/-- C3, witness: the bulk submission whose second answer references a
question of a different quiz leaves the datastore unchanged and
errors. -/
theorem bulk_invalid_answer_rolls_back_witness :
    (createQuizAttempt c3db c3req "u1" "at2" (fun _ => "ans") 5).1 = c3db ∧
    ∃ e, (createQuizAttempt c3db c3req "u1" "at2" (fun _ => "ans") 5).2 = .error e :=
  bulk_invalid_answer_rolls_back c3db c3req "u1" "at2" (fun _ => "ans") 5
    ⟨⟨"qb", ["D"]⟩, by decide, fun q hq => by
      have h0 : c3db.questions.find? (fun x => x.id == "qb") =
        some { id := "qb", quiz_id := quiz2id, correct_answer := ["D"] } := rfl
      rw [h0] at hq
      simp only [Option.some.injEq] at hq
      subst hq
      decide⟩

/-- C4: both write paths preserve the at-most-one-AnswerRecord-per-
(attempt_id, question_id) invariant, and a second Submit for an already
answered pair returns the duplicate-submission Conflict error and
leaves the datastore (hence the first record) unchanged: first write
wins. -/
theorem answer_pair_unique_first_write_wins :
    (∀ (db : DB) (aid qid : String) (sel : List String) (ord : Option ℚ)
       (uid nid : String) (now : ℕ),
       PairUnique db.answers →
       PairUnique (submitQuizAnswer db aid qid sel ord uid nid now).1.answers) ∧
    (∀ (db : DB) (req : BulkRequest) (uid aid : String) (ids : ℕ → String) (now : ℕ),
       PairUnique db.answers →
       PairUnique (createQuizAttempt db req uid aid ids now).1.answers) ∧
    (∀ (db : DB) (aid qid : String) (sel : List String) (ord : Option ℚ)
       (uid nid : String) (now : ℕ) (att : Attempt) (q : Question) (ex : AnswerRecord),
       isValidUUID aid = true → qid ≠ "" →
       db.attempts.find? (fun a => a.id == aid) = some att →
       att.user_id = uid → att.status = .inProgress →
       db.questions.find? (fun x => x.id == qid) = some q →
       q.quiz_id = att.quiz_id →
       db.answers.find? (fun a => a.attempt_id == aid && a.question_id == qid) = some ex →
       submitQuizAnswer db aid qid sel ord uid nid now = (db, .error .duplicateAnswer)) := by
  refine ⟨?_, ?_, ?_⟩
  · intro db aid qid sel ord uid nid now hu
    unfold submitQuizAnswer
    split
    · rename_i db1 e hph1
      rwa [submitPhase1_err db db1 aid qid sel ord uid nid now e hph1]
    · rename_i db1 att0 ans hph1
      obtain ⟨hdb1, hfind, hst, haid, hqid, hsel, hnone, hq⟩ :=
        submitPhase1_inserted db db1 aid qid sel ord uid nid now att0 ans hph1
      simp only [submitPhase2_answers, hdb1]
      unfold PairUnique
      rw [List.pairwise_append]
      refine ⟨hu, List.pairwise_singleton _ _, ?_⟩
      intro a hma b hmb
      simp only [List.mem_singleton] at hmb
      subst hmb
      rw [List.find?_eq_none] at hnone
      have hthis := hnone a hma
      intro hcontra
      obtain ⟨h1, h2⟩ := hcontra
      simp [h1, h2, haid, hqid] at hthis
  · intro db req uid aid ids now hu
    unfold createQuizAttempt
    split
    · exact hu
    · split
      · exact hu
      · split
        · exact hu
        · split
          · exact hu
          · rename_i recs hprep
            split
            · exact hu
            · rename_i newAnswers hins
              exact insertMany_pairUnique recs db.answers newAnswers hu hins
  · intro db aid qid sel ord uid nid now att q ex hv hqne hfind hown hst hqf hqm hex
    unfold submitQuizAnswer submitPhase1
    simp [hv, hqne, hfind, hown, hst, hqf, hqm, hex]

/-- C4, witness: the invariant is preserved by the concrete completing
submit and the concrete bulk submission, and resubmitting the already
answered first question of the fixture returns the duplicate error with
the datastore unchanged. -/
theorem answer_pair_unique_first_write_wins_witness :
    PairUnique ((submitQuizAnswer fixDB at1id "q3" ["C"] none "u1" "a3" 10).1.answers) ∧
    PairUnique ((createQuizAttempt c10db c10req "u1" "na1" (fun _ => "bk") 7).1.answers) ∧
    submitQuizAnswer fixDB at1id "q1" ["A"] none "u1" "dup" 99 =
      (fixDB, .error .duplicateAnswer) :=
  ⟨answer_pair_unique_first_write_wins.1 fixDB at1id "q3" ["C"] none "u1" "a3" 10 (by decide),
   answer_pair_unique_first_write_wins.2.1 c10db c10req "u1" "na1" (fun _ => "bk") 7 (by decide),
   answer_pair_unique_first_write_wins.2.2 fixDB at1id "q1" ["A"] none "u1" "dup" 99
     fixAttempt { id := "q1", quiz_id := quiz1id, correct_answer := ["A"] } fixAnswer1
     (by decide) (by decide) rfl rfl rfl rfl rfl rfl⟩

/-- C5: for every topic with at least 3 graded answers among the user's
20 most recent Completed attempts, the emitted proficiency equals
round(weighted_correct / weighted_total * 100), where every graded
answer is weighted by its quiz difficulty (EASY 1.0, MEDIUM 1.5,
HARD 2.0, encoded in difficultyWeight). -/
theorem proficiency_weighted_formula :
    ∀ (db : DB) (userId : String) (now : ℕ) (topic : String),
      3 ≤ (detailsFor (insightPairs db userId now) topic).length →
      ∃ ins, generateUserInsights db userId now = some ins ∧
        List.lookup topic ins.topic_proficiency =
          some (jround (weightedCorrect (detailsFor (insightPairs db userId now) topic) /
            weightedTotal (detailsFor (insightPairs db userId now) topic) * 100)) ∧
        ∀ d ∈ detailsFor (insightPairs db userId now) topic,
          d.weight = difficultyWeight d.difficulty := by
  intro db u now t h3
  have hpairs_ne : insightPairs db u now ≠ [] := by
    intro hnil
    rw [hnil] at h3
    simp [detailsFor] at h3
  have hemp : (insightAttempts db u).isEmpty = false := insightAttempts_nonempty hpairs_ne
  simp only [generateUserInsights, hemp, Bool.false_eq_true, if_false]
  refine ⟨_, rfl, ?_, detailsFor_weights⟩
  exact lookup_filterMap_of_mem
    (fun t2 => if (detailsFor (insightPairs db u now) t2).length < 3 then none
      else some (t2, weightedScore (detailsFor (insightPairs db u now) t2)))
    (by
      intro k p hp
      dsimp only at hp
      split at hp
      · exact absurd hp (by simp)
      · simp only [Option.some.injEq] at hp; rw [← hp])
    (topicKeys (insightPairs db u now)) t
    (weightedScore (detailsFor (insightPairs db u now) t))
    (mem_topicKeys_of_pos (by omega))
    (by dsimp only; rw [if_neg (by omega)])

/-- C5, witness: the Algebra topic of the insight fixture has 5 graded
answers, and its emitted proficiency satisfies the weighted rounded
formula. -/
theorem proficiency_weighted_formula_witness :
    3 ≤ (detailsFor (insightPairs c5db "u5" 200) "Algebra").length ∧
    (∃ ins, generateUserInsights c5db "u5" 200 = some ins ∧
      List.lookup "Algebra" ins.topic_proficiency =
        some (jround (weightedCorrect (detailsFor (insightPairs c5db "u5" 200) "Algebra") /
          weightedTotal (detailsFor (insightPairs c5db "u5" 200) "Algebra") * 100)) ∧
      ∀ d ∈ detailsFor (insightPairs c5db "u5" 200) "Algebra",
        d.weight = difficultyWeight d.difficulty) :=
  ⟨by decide, proficiency_weighted_formula c5db "u5" 200 "Algebra" (by decide)⟩

/-- C6: for every topic qualifying for an insight (at least 3 graded
answers), the emitted confidence equals
clamp(round(proficiency * 0.6 + recent_score * 0.3 + trend * 0.1), 0, 100),
where recent_score is the weighted score over the topic's 10 most
recent answers and trend is recent_score minus the older answers'
weighted score when at least 3 older answers remain, else 0. -/
theorem confidence_blend_formula :
    ∀ (db : DB) (userId : String) (now : ℕ) (topic : String),
      3 ≤ (detailsFor (insightPairs db userId now) topic).length →
      ∃ ins, generateUserInsights db userId now = some ins ∧
        List.lookup topic ins.confidence_scores =
          some (max 0 (min 100 (jround (
            ((weightedScore (detailsFor (insightPairs db userId now) topic) : ℤ) : ℚ)
              * (6/10) +
            ((weightedScore (recentDetails (detailsFor (insightPairs db userId now) topic)) : ℤ) : ℚ)
              * (3/10) +
            (((if 3 ≤ (olderDetails (detailsFor (insightPairs db userId now) topic)).length
               then weightedScore (recentDetails (detailsFor (insightPairs db userId now) topic)) -
                 weightedScore (olderDetails (detailsFor (insightPairs db userId now) topic))
               else 0) : ℤ) : ℚ) * (1/10))))) := by
  intro db u now t h3
  have hpairs_ne : insightPairs db u now ≠ [] := by
    intro hnil
    rw [hnil] at h3
    simp [detailsFor] at h3
  have hemp : (insightAttempts db u).isEmpty = false := insightAttempts_nonempty hpairs_ne
  simp only [generateUserInsights, hemp, Bool.false_eq_true, if_false]
  refine ⟨_, rfl, ?_⟩
  have hlookup := lookup_filterMap_of_mem
    (fun t2 => if (detailsFor (insightPairs db u now) t2).length < 3 then none
      else some (t2, confidenceFor (detailsFor (insightPairs db u now) t2)))
    (by
      intro k p hp
      dsimp only at hp
      split at hp
      · exact absurd hp (by simp)
      · simp only [Option.some.injEq] at hp; rw [← hp])
    (topicKeys (insightPairs db u now)) t
    (confidenceFor (detailsFor (insightPairs db u now) t))
    (mem_topicKeys_of_pos (by omega))
    (by dsimp only; rw [if_neg (by omega)])
  rw [hlookup]
  have hrec : 3 ≤ (recentDetails (detailsFor (insightPairs db u now) t)).length := by
    rw [recentDetails_length]
    omega
  simp only [confidenceFor, if_pos hrec]

/-- C6, witness: the confidence blend applied to the Algebra topic of
the insight fixture. -/
theorem confidence_blend_formula_witness :
    3 ≤ (detailsFor (insightPairs c5db "u5" 200) "Algebra").length ∧
    (∃ ins, generateUserInsights c5db "u5" 200 = some ins ∧
      List.lookup "Algebra" ins.confidence_scores =
        some (max 0 (min 100 (jround (
          ((weightedScore (detailsFor (insightPairs c5db "u5" 200) "Algebra") : ℤ) : ℚ)
            * (6/10) +
          ((weightedScore (recentDetails (detailsFor (insightPairs c5db "u5" 200) "Algebra")) : ℤ) : ℚ)
            * (3/10) +
          (((if 3 ≤ (olderDetails (detailsFor (insightPairs c5db "u5" 200) "Algebra")).length
             then weightedScore (recentDetails (detailsFor (insightPairs c5db "u5" 200) "Algebra")) -
               weightedScore (olderDetails (detailsFor (insightPairs c5db "u5" 200) "Algebra"))
             else 0) : ℤ) : ℚ) * (1/10)))))) :=
  ⟨by decide, confidence_blend_formula c5db "u5" 200 "Algebra" (by decide)⟩

/-- C7: every topic appearing in any field of the insight snapshot the
engine persists (proficiency, the persisted topic_performance map,
confidence, weak topics, strong topics, or the weak-topic data) has at
least 3 graded answers in the analyzed attempt window. -/
theorem insight_min_sample_invariant :
    ∀ (db : DB) (userId : String) (now : ℕ) (ins : Insight) (topic : String),
      generateUserInsights db userId now = some ins →
      ((List.lookup topic ins.topic_proficiency).isSome ∨
       (List.lookup topic ins.topic_performance).isSome ∨
       (List.lookup topic ins.confidence_scores).isSome ∨
       topic ∈ ins.weak_topics ∨ topic ∈ ins.strong_topics ∨
       (List.lookup topic ins.weak_topics_data).isSome) →
      3 ≤ (detailsFor (insightPairs db userId now) topic).length := by
  intro db u now ins t hgen hmem
  simp only [generateUserInsights] at hgen
  split at hgen
  · exact absurd hgen (by simp)
  · simp only [Option.some.injEq] at hgen
    subst hgen
    have hprof : (List.lookup t
        ((topicKeys (insightPairs db u now)).filterMap (fun t2 =>
          if (detailsFor (insightPairs db u now) t2).length < 3 then none
          else some (t2, weightedScore (detailsFor (insightPairs db u now) t2))))).isSome →
        3 ≤ (detailsFor (insightPairs db u now) t).length := by
      intro hs
      rw [Option.isSome_iff_exists] at hs
      obtain ⟨b, hb⟩ := hs
      have hfn := lookup_filterMap_some _
        (by
          intro k p hp
          try dsimp only at hp
          split at hp
          · exact absurd hp (by simp)
          · simp only [Option.some.injEq] at hp; rw [← hp])
        _ t b hb
      try dsimp only at hfn
      split at hfn
      · exact absurd hfn (by simp)
      · omega
    rcases hmem with hm | hm | hm | hm | hm | hm
    · exact hprof hm
    · exact hprof hm
    · rw [Option.isSome_iff_exists] at hm
      obtain ⟨b, hb⟩ := hm
      have hfn := lookup_filterMap_some _
        (by
          intro k p hp
          try dsimp only at hp
          split at hp
          · exact absurd hp (by simp)
          · simp only [Option.some.injEq] at hp; rw [← hp])
        _ t b hb
      try dsimp only at hfn
      split at hfn
      · exact absurd hfn (by simp)
      · omega
    · rw [List.mem_filterMap] at hm
      obtain ⟨k, hk, hfk⟩ := hm
      split at hfk
      · exact absurd hfk (by simp)
      · split at hfk
        · simp only [Option.some.injEq] at hfk
          subst hfk
          omega
        · exact absurd hfk (by simp)
    · rw [List.mem_filterMap] at hm
      obtain ⟨k, hk, hfk⟩ := hm
      split at hfk
      · exact absurd hfk (by simp)
      · split at hfk
        · exact absurd hfk (by simp)
        · split at hfk
          · simp only [Option.some.injEq] at hfk
            subst hfk
            omega
          · exact absurd hfk (by simp)
    · rw [Option.isSome_iff_exists] at hm
      obtain ⟨b, hb⟩ := hm
      have hwd := lookup_filterMap_some
        (fun t2 => (List.lookup t2
          ((topicKeys (insightPairs db u now)).filterMap (fun t3 =>
            if (detailsFor (insightPairs db u now) t3).length < 3 then none
            else some (t3, weightedScore (detailsFor (insightPairs db u now) t3))))).map
            (fun v => (t2, v)))
        (by
          intro k p hp
          try dsimp only at hp
          cases hlk : List.lookup k ((topicKeys (insightPairs db u now)).filterMap (fun t3 =>
              if (detailsFor (insightPairs db u now) t3).length < 3 then none
              else some (t3, weightedScore (detailsFor (insightPairs db u now) t3)))) with
          | none => rw [hlk] at hp; exact absurd hp (by simp)
          | some v =>
            rw [hlk] at hp
            simp only [Option.map_some', Option.some.injEq] at hp
            rw [← hp])
        _ t b hb
      try dsimp only at hwd
      apply hprof
      cases hlk : List.lookup t ((topicKeys (insightPairs db u now)).filterMap (fun t3 =>
          if (detailsFor (insightPairs db u now) t3).length < 3 then none
          else some (t3, weightedScore (detailsFor (insightPairs db u now) t3)))) with
      | none => rw [hlk] at hwd; exact absurd hwd (by simp)
      | some v => simp [hlk]

/-- C7, witness: the fixture snapshot emits the Algebra topic, and the
invariant yields its 3-or-more graded answers. -/
theorem insight_min_sample_invariant_witness :
    3 ≤ (detailsFor (insightPairs c5db "u5" 200) "Algebra").length :=
  insight_min_sample_invariant c5db "u5" 200 c5ins "Algebra" rfl (Or.inl (by decide))

/-- C8: in both recording paths, is_correct is true exactly when the
selected answer equals the question's correct answer sequence by
structural, order-sensitive equality. -/
theorem is_correct_structural_equality :
    (∀ (db : DB) (aid qid : String) (sel : List String) (ord : Option ℚ)
       (uid nid : String) (now : ℕ) (db2 : DB) (res : SubmitOk) (q : Question),
       submitQuizAnswer db aid qid sel ord uid nid now = (db2, .ok res) →
       db.questions.find? (fun x => x.id == qid) = some q →
       res.answer.is_correct = decide (sel = q.correct_answer)) ∧
    (∀ (db : DB) (qz aid nid : String) (now : ℕ) (a : BulkAnswerInput)
       (rec : AnswerRecord) (q : Question),
       prepareAnswer db qz aid nid now a = .ok rec →
       db.questions.find? (fun x => x.id == a.question_id) = some q →
       rec.is_correct = decide (a.selected_answer = q.correct_answer)) := by
  constructor
  · intro db aid qid sel ord uid nid now db2 res q h hq
    unfold submitQuizAnswer at h
    split at h
    · simp_all
    · rename_i db1 att0 ans hph1
      obtain ⟨hdb1, hfind, hst, haid, hqid, hsel, hnone, q2, hq2, hic⟩ :=
        submitPhase1_inserted db db1 aid qid sel ord uid nid now att0 ans hph1
      simp only [Prod.mk.injEq, Except.ok.injEq] at h
      obtain ⟨hdb2, hres⟩ := h
      rw [hq] at hq2
      simp only [Option.some.injEq] at hq2
      subst hq2
      rw [← hres]
      exact hic
  · intro db qz aid nid now a rec q h hq
    unfold prepareAnswer at h
    split at h
    · simp_all
    · split at h
      · simp_all
      · rename_i q2 hq2
        split at h
        · simp_all
        · simp only [Except.ok.injEq] at h
          subst h
          rw [hq] at hq2
          simp only [Option.some.injEq] at hq2
          subst hq2
          rfl

/-- C8, witness: submitting the reversed permutation B, A against the
multi-select correct answer A, B records is_correct = false, although
the input is a permutation of the correct sequence. -/
theorem is_correct_structural_equality_witness :
    c8run.2 = .ok ⟨c8ans.is_correct, c8ans⟩ ∧
    (⟨c8ans.is_correct, c8ans⟩ : SubmitOk).answer.is_correct =
      decide ((["B", "A"] : List String) = ["A", "B"]) ∧
    decide ((["B", "A"] : List String) = ["A", "B"]) = false ∧
    (["B", "A"] : List String).Perm ["A", "B"] :=
  ⟨rfl,
   is_correct_structural_equality.1 c8db at1id "qm" ["B", "A"] none "u1" "m1" 30
     c8run.1 ⟨c8ans.is_correct, c8ans⟩
     { id := "qm", quiz_id := quiz1id, correct_answer := ["A", "B"] } rfl rfl,
   by decide, by decide⟩

/-- C9: a user requesting their own dashboard always gets a success
whose performance history is the mapped 10-most-recent Completed
attempts (hence at most 10 rows), and when no insight snapshot exists
for the user, every insight-derived field is its empty value and the
last-updated marker is null. -/
theorem dashboard_own_request_shape :
    ∀ (db : DB) (userId : String),
      ∃ dash, getDashboardData db userId userId = .ok dash ∧
        dash.performance_history.length ≤ 10 ∧
        dash.performance_history = (dashboardAttempts db userId).map (fun a =>
          { id := a.id
            quiz_id := a.quiz_id
            score := a.score
            correct_answers := a.correct_answers
            total_questions := a.total_questions
            date := a.completed_at.getD a.created_at : PerformanceEntry }) ∧
        (latestInsight db userId = none →
          dash.weak_topics_array = [] ∧ dash.strong_topics = [] ∧
          dash.confidence_scores = [] ∧ dash.topic_proficiency = [] ∧
          dash.weak_topics = [] ∧ dash.insight_last_updated = none) := by
  intro db u
  simp only [getDashboardData, if_neg (show ¬ u ≠ u from by simp)]
  refine ⟨_, rfl, ?_, rfl, ?_⟩
  · dsimp only
    rw [List.length_map]
    unfold dashboardAttempts
    rw [List.length_take]
    omega
  · intro hnone
    simp only [hnone, validateScores]
    simp

/-- C9, witness: the dashboard of a user with one completed attempt and
no insight snapshot. -/
theorem dashboard_own_request_shape_witness :
    ∃ dash, getDashboardData c9db "u9" "u9" = .ok dash ∧
      dash.performance_history.length ≤ 10 ∧
      dash.performance_history = (dashboardAttempts c9db "u9").map (fun a =>
        { id := a.id
          quiz_id := a.quiz_id
          score := a.score
          correct_answers := a.correct_answers
          total_questions := a.total_questions
          date := a.completed_at.getD a.created_at : PerformanceEntry }) ∧
      (latestInsight c9db "u9" = none →
        dash.weak_topics_array = [] ∧ dash.strong_topics = [] ∧
        dash.confidence_scores = [] ∧ dash.topic_proficiency = [] ∧
        dash.weak_topics = [] ∧ dash.insight_last_updated = none) :=
  dashboard_own_request_shape c9db "u9"

/-- C10: a successful bulk submission persists the caller-supplied
score, total_questions, correct_answers and time_taken verbatim in the
created Completed attempt, with no recomputation and no range
validation. -/
theorem bulk_persists_caller_fields_verbatim :
    ∀ (db : DB) (req : BulkRequest) (uid aid : String) (ids : ℕ → String) (now : ℕ)
      (db2 : DB) (att : Attempt),
      createQuizAttempt db req uid aid ids now = (db2, .ok att) →
      att.score = req.score ∧ att.total_questions = req.total_questions ∧
      att.correct_answers = req.correct_answers ∧ att.time_taken = req.time_taken ∧
      att.status = .completed ∧ db2.attempts = db.attempts ++ [att] := by
  intro db req uid aid ids now db2 att h
  unfold createQuizAttempt at h
  split at h
  · simp_all
  · split at h
    · simp_all
    · split at h
      · simp_all
      · split at h
        · simp_all
        · split at h
          · simp_all
          · simp only [Prod.mk.injEq, Except.ok.injEq] at h
            obtain ⟨hdb, hatt⟩ := h
            subst hdb
            subst hatt
            simp_all

/-- C10, witness: a bulk submission with score 999, correct_answers 42
inconsistent with its single correct answer, and negative time_taken is
stored verbatim. -/
theorem bulk_persists_caller_fields_verbatim_witness :
    c10att.score = c10req.score ∧ c10att.total_questions = c10req.total_questions ∧
    c10att.correct_answers = c10req.correct_answers ∧
    c10att.time_taken = c10req.time_taken ∧
    c10att.status = .completed ∧
    (createQuizAttempt c10db c10req "u1" "na1" (fun _ => "bk") 7).1.attempts =
      c10db.attempts ++ [c10att] :=
  bulk_persists_caller_fields_verbatim c10db c10req "u1" "na1" (fun _ => "bk") 7
    (createQuizAttempt c10db c10req "u1" "na1" (fun _ => "bk") 7).1 c10att rfl

end CloudQuiz
